import Mathlib

/-!
Verification of the AEGIS clinical-triage core against its design notes.

The TypeScript sources are embedded shallowly:
* pure functions over strings become Lean functions over `List Char` / `String`;
* JavaScript numbers become `ℚ` where the code only compares and adds
  fixed decimal constants, and `ℝ` where the code uses `Math.exp` /
  `Math.log` / `Math.sqrt`;
* `undefined` / optional values become `Option`;
* the two pieces of process-wide mutable state (the BM25 IDF cache) are
  threaded explicitly through the embedded functions;
* host primitives (`JSON.parse`, the inference backends, the wall clock)
  are parameters of the embedded functions.
-/

namespace AEGIS

/-! ## Severity calibration (`calibration.ts`)

Keyword tables and the tiered calibration state machine, ported clause by
clause from the source file. -/

/-- Severity levels supported by the calibration system. -/
inductive SeverityLevel where
  | low
  | medium
  | high
deriving DecidableEq, Repr

/-- Result of severity calibration. -/
structure CalibrationResult where
  severity : SeverityLevel
  originalSeverity : SeverityLevel
  wasCalibrated : Bool
  note : Option String
deriving DecidableEq, Repr

/-- Red flag keywords indicating high-severity conditions. -/
def RED_FLAG_KEYWORDS : List String := [
  "stroke", "stemi", "myocardial infarction", "heart attack", "cardiac arrest",
  "chest pain", "chest tightness", "chest pressure", "radiating chest pain",
  "chest pain with radiation",
  "severe respiratory distress", "cannot breathe", "unable to breathe",
  "cyanosis", "blue lips", "blue fingers", "stridor", "anaphylaxis",
  "severe allergic reaction", "shortness of breath", "difficulty breathing",
  "unconscious", "unresponsive", "seizure", "facial droop", "slurred speech",
  "acute weakness", "sudden weakness", "paralysis", "altered mental status",
  "confusion sudden onset",
  "severe trauma", "uncontrolled bleeding", "hemorrhage", "severe bleeding",
  "head trauma", "spinal injury", "amputation", "penetrating wound",
  "shock", "hypotension", "low blood pressure", "septic shock",
  "overdose", "poisoning", "suicidal", "active labor", "choking", "drowning"]

/-- Tier 1 Red Flags: always HIGH severity (life-threatening). -/
def RED_FLAGS_TIER_1 : List String :=
  ["cardiac arrest", "stroke", "unconscious", "severe bleeding", "anaphylaxis",
   "seizure"]

/-- Tier 2 Red Flags: usually HIGH severity (serious conditions). -/
def RED_FLAGS_TIER_2 : List String :=
  ["chest pain with radiation", "severe trauma", "respiratory distress",
   "altered mental status", "high fever with toxic appearance"]

/-- Tier 3 Red Flags: MEDIUM unless other factors. -/
def RED_FLAGS_TIER_3 : List String :=
  ["chest pain", "shortness of breath", "abdominal pain", "severe pain"]

/-- Low severity markers (negative predictors). -/
def LOW_SEVERITY_MARKERS : List String :=
  ["improving", "tolerating fluids", "afebrile", "stable", "self-limited",
   "chronic", "well-appearing", "no distress"]

/-- Minor symptom keywords indicating non-urgent conditions. -/
def MINOR_SYMPTOM_KEYWORDS : List String := [
  "sore throat", "mild headache", "minor headache", "tension headache",
  "muscle ache", "muscle soreness", "minor pain", "mild pain", "discomfort",
  "rash", "itching", "minor cut", "scratch", "bruise", "minor bruise",
  "skin irritation",
  "runny nose", "nasal congestion", "sneezing", "mild cough", "dry cough",
  "mild fever", "low grade fever", "fatigue", "tiredness", "dizziness mild",
  "mild nausea", "upset stomach", "indigestion", "heartburn", "constipation",
  "diarrhea mild"]

/-- Urgent-but-stable keywords indicating MEDIUM severity conditions. -/
def URGENT_BUT_STABLE_KEYWORDS : List String := [
  "fracture", "broken bone", "sprain", "severe localized pain", "kidney stone",
  "kidney stones", "persistent fever", "high fever", "cellulitis",
  "moderate wheezing", "asthma", "vomiting", "diarrhea", "dehydration",
  "ear infection", "sinus infection", "urinary tract infection", "uti"]

/-- `String.prototype.toLowerCase` on the character data of a string.
The triage vocabulary and inputs are ASCII, where `Char.toLower` agrees
with the JavaScript Unicode lowercasing. -/
def lowerData (s : String) : List Char :=
  s.data.map Char.toLower

/-- Substring containment on character lists: `hay.includes(pat)`. -/
def containsSub (hay pat : List Char) : Bool :=
  match hay with
  | [] => pat.isEmpty
  | _ :: t => pat.isPrefixOf hay || containsSub t pat

/-- `textToCheck.includes(keyword.toLowerCase())` where `textToCheck` is the
already-lowercased search text. -/
def containsKeyword (textToCheck : List Char) (keyword : String) : Bool :=
  containsSub textToCheck (lowerData keyword)

/-- Helper function to build normalized search text from symptoms and summary:
`` `${symptoms.join(" ")} ${summaryText || ""}`.toLowerCase() ``. -/
def buildSearchText (symptoms : List String) (summaryText : Option String) :
    List Char :=
  let symptomsText := String.intercalate " " symptoms
  let normalizedSummary := summaryText.getD ""
  lowerData (symptomsText ++ " " ++ normalizedSummary)

/-- Check if symptoms contain any red flags (high-severity indicators). -/
def hasRedFlags (symptoms : List String) (summaryText : Option String) : Bool :=
  let textToCheck := buildSearchText symptoms summaryText
  RED_FLAG_KEYWORDS.any (fun keyword => containsKeyword textToCheck keyword)

/-- Check if symptoms contain ONLY minor symptoms (no red flags, no urgent
symptoms). -/
def hasOnlyMinorSymptoms (symptoms : List String) (summaryText : Option String) :
    Bool :=
  let textToCheck := buildSearchText symptoms summaryText
  if hasRedFlags symptoms summaryText then false
  else
    let hasUrgent :=
      URGENT_BUT_STABLE_KEYWORDS.any (fun keyword =>
        containsKeyword textToCheck keyword)
    if hasUrgent then false
    else
      MINOR_SYMPTOM_KEYWORDS.any (fun keyword =>
        containsKeyword textToCheck keyword)

/-- Count how many red flag keywords are matched in the symptoms/summary. -/
def countRedFlags (symptoms : List String) (summaryText : Option String) : Nat :=
  let textToCheck := buildSearchText symptoms summaryText
  (RED_FLAG_KEYWORDS.filter (fun keyword =>
    containsKeyword textToCheck keyword)).length

/-- Check for Tier 1 red flags (life-threatening conditions). -/
def hasTier1Flags (symptoms : List String) (summaryText : Option String) : Bool :=
  let textToCheck := buildSearchText symptoms summaryText
  RED_FLAGS_TIER_1.any (fun keyword => containsKeyword textToCheck keyword)

/-- Check for Tier 2 red flags (serious conditions). -/
def hasTier2Flags (symptoms : List String) (summaryText : Option String) : Bool :=
  let textToCheck := buildSearchText symptoms summaryText
  RED_FLAGS_TIER_2.any (fun keyword => containsKeyword textToCheck keyword)

/-- Check for Tier 3 red flags (moderate risk conditions). -/
def hasTier3Flags (symptoms : List String) (summaryText : Option String) : Bool :=
  let textToCheck := buildSearchText symptoms summaryText
  RED_FLAGS_TIER_3.any (fun keyword => containsKeyword textToCheck keyword)

/-- Check for low severity markers (negative predictors). -/
def hasLowSeverityMarkers (symptoms : List String) (summaryText : Option String) :
    Bool :=
  let textToCheck := buildSearchText symptoms summaryText
  LOW_SEVERITY_MARKERS.any (fun keyword => containsKeyword textToCheck keyword)

/-! ### Age extraction

`extractAge` matches the five regex patterns of the source in order,
taking each pattern's leftmost match, exactly as `String.prototype.match`
does.  The character classes are the ASCII parts of the JavaScript classes
`\d`, `\s` and `\w`. -/

/-- ASCII whitespace, the `\s` class on the inputs in scope. -/
def isJsSpace (c : Char) : Bool :=
  c = ' ' || c = '\t' || c = '\n' || c = '\r' ||
    c = Char.ofNat 11 || c = Char.ofNat 12

/-- The separator class `[-\s]` used between the age digits and the words. -/
def isSepChar (c : Char) : Bool :=
  c = '-' || isJsSpace c

/-- The `\w` class: alphanumeric or underscore. -/
def isWordChar (c : Char) : Bool :=
  c.isAlphanum || c = '_'

/-- `parseInt(digits, 10)` for a run of decimal digits. -/
def natOfDigits (ds : List Char) : Nat :=
  ds.foldl (fun n c => n * 10 + (c.toNat - '0'.toNat)) 0

/-- Match a literal word and continue with the rest of the input. -/
def litThen (pat : List Char) (cs : List Char) (k : List Char → Bool) : Bool :=
  if pat.isPrefixOf cs then k (cs.drop pat.length) else false

/-- The optional separator `[-\s]?`: greedy, with regex backtracking. -/
def optSepThen (cs : List Char) (k : List Char → Bool) : Bool :=
  match cs with
  | [] => k []
  | c :: t => if isSepChar c then (k t || k (c :: t)) else k (c :: t)

/-- A `\b` word boundary placed just after a word character. -/
def boundaryAfter (cs : List Char) : Bool :=
  match cs with
  | [] => true
  | c :: _ => !(isWordChar c)

/-- Tail of pattern 1, `[-\s]?year[-\s]?old`, applied after the digits. -/
def yearOldTail (cs : List Char) : Bool :=
  optSepThen cs (fun cs1 =>
    litThen "year".data cs1 (fun cs2 =>
      optSepThen cs2 (fun cs3 =>
        litThen "old".data cs3 (fun _ => true))))

/-- Tail of pattern 2, `[-\s]yo\b`, applied after the digits. -/
def yoTail (cs : List Char) : Bool :=
  match cs with
  | [] => false
  | c :: t => isSepChar c && litThen "yo".data t (fun r => boundaryAfter r)

/-- Tail of pattern 5, `[-\s]year[-\s]old` with mandatory separators. -/
def yearOldTailStrict (cs : List Char) : Bool :=
  match cs with
  | [] => false
  | c :: t =>
    isSepChar c && litThen "year".data t (fun cs2 =>
      match cs2 with
      | [] => false
      | d :: u => isSepChar d && litThen "old".data u (fun _ => true))

/-- Leftmost match of a `(\d+)<tail>` pattern: try every start position in
order; the digit run is maximal (shrinking it can never help, as a digit can
neither start the separator classes nor the literal words). -/
def scanDigitPattern (tail : List Char → Bool) : List Char → Option Nat
  | [] => none
  | c :: t =>
    if c.isDigit then
      let ds := (c :: t).takeWhile Char.isDigit
      let rest := (c :: t).dropWhile Char.isDigit
      if tail rest then some (natOfDigits ds) else scanDigitPattern tail t
    else scanDigitPattern tail t

/-- Leftmost match of `\b<kw>[:\s]*(\d+)\b` (patterns 3 and 4).  `prevIsWord`
records whether the previous character was a word character, for the leading
word boundary. -/
def scanKeywordNum (kw : List Char) (prevIsWord : Bool) :
    List Char → Option Nat
  | [] => none
  | c :: t =>
    if !prevIsWord && kw.isPrefixOf (c :: t) then
      let rest := (c :: t).drop kw.length
      let rest2 := rest.dropWhile (fun d => d = ':' || isJsSpace d)
      let ds := rest2.takeWhile Char.isDigit
      if !ds.isEmpty && boundaryAfter (rest2.dropWhile Char.isDigit) then
        some (natOfDigits ds)
      else scanKeywordNum kw (isWordChar c) t
    else scanKeywordNum kw (isWordChar c) t

/-- The source loop over the patterns: the first pattern whose first match
parses to an age in the open interval (0, 150) wins; a match outside that
range moves on to the next pattern. -/
def pickFirstValidAge : List (Option Nat) → Option Nat
  | [] => none
  | none :: rest => pickFirstValidAge rest
  | some v :: rest =>
    if 0 < v && v < 150 then some v else pickFirstValidAge rest

/-- Extract age from text using common patterns; `none` if no age found. -/
def extractAge (text : List Char) : Option Nat :=
  let t := text.map Char.toLower
  pickFirstValidAge [
    scanDigitPattern yearOldTail t,
    scanDigitPattern yoTail t,
    scanKeywordNum "age".data false t,
    scanKeywordNum "aged".data false t,
    scanDigitPattern yearOldTailStrict t]

/-- Get age-based risk adjustment factor. -/
def getAgeRiskAdjustment (age : Option Nat) : Int :=
  match age with
  | none => 0
  | some a =>
    if a < 2 then 2
    else if a ≤ 5 then 1
    else if a ≥ 75 then 2
    else if a ≥ 65 then 1
    else 0

/-- Check if confidence threshold is met (the caller passes the source's
default threshold 0.90 explicitly). -/
def checkConfidenceThreshold (confidence threshold : ℚ) : Bool :=
  confidence ≥ threshold

/-- `(x).toFixed(1)` for the rational idealization of a JavaScript number:
round to one decimal digit and print it. -/
def ratToFixed1 (q : ℚ) : String :=
  let n : Int := round (q * 10)
  let m := n.natAbs
  (if n < 0 then "-" else "") ++ Nat.repr (m / 10) ++ "." ++ Nat.repr (m % 10)

/-- The tiered if-chain of the calibration source: the final values of the
three mutable locals `(calibratedSeverity, wasCalibrated, calibrationReason)`
just before the "Build final result" lines. -/
def calibrateStep (predictedSeverity : SeverityLevel)
    (tier1Present tier2Present tier3Present lowMarkersPresent hasUrgent
      hasAnyRedFlag minorOnly : Bool) (ageAdjustment : Int) :
    SeverityLevel × Bool × String :=
  match predictedSeverity with
    | .high =>
      if tier1Present then
        (.high, false, "Tier 1 life-threatening flags present")
      else if tier2Present then
        (if lowMarkersPresent && decide (ageAdjustment ≤ 0) then
          (.medium, true, "Tier 2 flags with strong LOW markers")
        else
          (.high, false, "Tier 2 serious flags present"))
      else if hasAnyRedFlag then
        (.high, false,
          if tier3Present then "Tier 3 flags present" else "Red flags detected")
      else if hasUrgent then
        (.medium, true,
          "calibrated-down: no red flags detected, urgent but stable symptoms present")
      else if tier3Present && lowMarkersPresent then
        (.low, true, "Tier 3 flags with LOW severity markers")
      else if minorOnly then
        (.low, true, "calibrated-down: only minor symptoms detected")
      else
        (.low, true, "calibrated-down: no red flags detected")
    | .medium =>
      if tier1Present || tier2Present then
        (.high, true,
          if tier1Present then "Tier 1 life-threatening flags"
          else "Tier 2 serious flags")
      else if minorOnly then
        (.low, true, "calibrated-down: only minor symptoms detected")
      else if lowMarkersPresent && !tier3Present then
        (.low, true, "LOW severity markers present")
      else
        (.medium, false, "")
    | .low =>
      if tier1Present then
        (.high, true, "Tier 1 life-threatening flags override LOW")
      else if tier2Present then
        ((if ageAdjustment > 0 then .high else .medium), true,
          "Tier 2 serious flags override LOW")
      else
        (.low, false, "")

/-- The part of `calibrateSeverity` that runs when the confidence gate does
not fire: the tiered if-chain followed by the "Build final result" lines
(`severity != predicted` forces `wasCalibrated`, and `note` is populated
from the branch's reason when calibration was applied). -/
def calibrateSeverityPost (predictedSeverity : SeverityLevel)
    (tier1Present tier2Present tier3Present lowMarkersPresent hasUrgent
      hasAnyRedFlag minorOnly : Bool) (ageAdjustment : Int) :
    CalibrationResult :=
  let step := calibrateStep predictedSeverity tier1Present tier2Present
    tier3Present lowMarkersPresent hasUrgent hasAnyRedFlag minorOnly
    ageAdjustment
  let calibratedSeverity := step.1
  let wasCalibrated :=
    if calibratedSeverity = predictedSeverity then step.2.1 else true
  let calibrationReason := step.2.2
  { severity := calibratedSeverity
    originalSeverity := predictedSeverity
    wasCalibrated := wasCalibrated
    note :=
      if wasCalibrated then
        some ("calibrated" ++
          (if calibrationReason = "" then "" else ": " ++ calibrationReason))
      else none }

/-- Main calibration function that adjusts severity based on symptom
analysis. -/
def calibrateSeverity (predictedSeverity : SeverityLevel)
    (symptoms : List String) (summaryText : Option String)
    (confidence : Option ℚ) (patientAge : Option Nat) : CalibrationResult :=
  let textToCheck := buildSearchText symptoms summaryText
  let extractedAge :=
    match patientAge with
    | some a => some a
    | none => extractAge textToCheck
  let ageAdjustment := getAgeRiskAdjustment extractedAge
  let tier1Present := hasTier1Flags symptoms summaryText
  let tier2Present := hasTier2Flags symptoms summaryText
  let tier3Present := hasTier3Flags symptoms summaryText
  let lowMarkersPresent := hasLowSeverityMarkers symptoms summaryText
  let hasUrgent :=
    URGENT_BUT_STABLE_KEYWORDS.any (fun keyword =>
      containsKeyword textToCheck keyword)
  let redFlagCount := countRedFlags symptoms summaryText
  let hasAnyRedFlag := decide (redFlagCount > 0)
  let minorOnly := hasOnlyMinorSymptoms symptoms summaryText
  match confidence with
  | some c =>
    if !(checkConfidenceThreshold c (9/10)) then
      { severity := .medium
        originalSeverity := predictedSeverity
        wasCalibrated := true
        note := some ("calibrated-abstain: confidence " ++
          ratToFixed1 (c * 100) ++ "% below 90% threshold") }
    else
      calibrateSeverityPost predictedSeverity tier1Present tier2Present
        tier3Present lowMarkersPresent hasUrgent hasAnyRedFlag minorOnly
        ageAdjustment
  | none =>
    calibrateSeverityPost predictedSeverity tier1Present tier2Present
      tier3Present lowMarkersPresent hasUrgent hasAnyRedFlag minorOnly
      ageAdjustment

/-! ## Hybrid orchestrator (`hybrid-orchestrator.ts`)

Edge-first inference with cloud fallback.  The external backends
(`runEdgeInference`, `analyzeCaseCloud`), the host JSON parser and the wall
clock are parameters of the embedded `analyzeHybrid`: an `Except` value per
backend invocation, a partial parsing function per `JSON.parse` call site,
and one elapsed-time value per `Date.now()` measurement. -/

/-- Source of the analysis result. -/
inductive AnalysisSource where
  | edge
  | cloud
deriving DecidableEq, Repr

/-- Differential diagnosis entry. -/
structure DifferentialEntry where
  condition : String
  probability : ℚ
  recommendation : String
deriving DecidableEq, Repr

/-- Unified hybrid analysis result. -/
structure HybridAnalysisResult where
  symptoms : List String
  severity : SeverityLevel
  summary : String
  differential : List DifferentialEntry
  recommendations : List String
  reasoning : String
  fullResponse : String
  source : AnalysisSource
  confidence : ℚ
  wasCalibrated : Bool
  fallbackReason : Option String
  inferenceTime : Nat
  tokensGenerated : Option Nat
  edgeLatency : Option Nat
  cloudLatency : Option Nat
deriving DecidableEq, Repr

/-- Edge inference result parsed from response. -/
structure ParsedEdgeResult where
  severity : SeverityLevel
  summary : String
  symptoms : List String
  differential : List DifferentialEntry
  recommendations : List String
  reasoning : String
  confidence : Option ℚ
deriving DecidableEq, Repr

/-- The value returned by `runEdgeInference` (`mediapipe.ts`): the fields
consumed by the orchestrator. -/
structure EdgeInferenceResult where
  response : String
  tokensGenerated : Nat
  inferenceTime : Nat
  severity : Option SeverityLevel
  calibrated : Option Bool
deriving DecidableEq, Repr

/-- The value returned by `analyzeCaseCloud` (`api.ts`). -/
structure CaseAnalysis where
  symptoms : String
  diagnosis_draft : String
  critique : String
  final_output : String
deriving DecidableEq, Repr

/-- `Partial<ParsedEdgeResult>`: what `JSON.parse` can deliver inside
`parseCloudResponse` — every field optional. -/
structure CloudParsed where
  symptoms : Option (List String)
  severity : Option SeverityLevel
  summary : Option String
  differential : Option (List DifferentialEntry)
  recommendations : Option (List String)
  reasoning : Option String
  confidence : Option ℚ
deriving DecidableEq, Repr

/-- JavaScript `a || b` on strings: the empty string is falsy. -/
def jsOr (a b : String) : String :=
  if a = "" then b else a

/-- Calculate confidence score for edge inference result. -/
def calculateConfidenceScore (severity : SeverityLevel)
    (symptoms : List String) (summary : String) (wasCalibrated : Bool) : ℚ :=
  let redFlagCount := countRedFlags symptoms (some summary)
  let hasMinorOnly := hasOnlyMinorSymptoms symptoms (some summary)
  let baseConfidence : ℚ :=
    match severity with
    | .high =>
      if redFlagCount ≥ 2 then 0.92
      else if redFlagCount = 1 then 0.85
      else 0.65
    | .low =>
      if hasMinorOnly then 0.88
      else if redFlagCount = 0 then 0.75
      else 0.55
    | .medium => 0.50
  let boosted :=
    if wasCalibrated then min 0.95 (baseConfidence + 0.05) else baseConfidence
  ((round (boosted * 100) : ℤ) : ℚ) / 100

/-- Check if edge result is confident enough to use without fallback. -/
def isEdgeConfident (severity : SeverityLevel) (confidence : ℚ)
    (symptoms : List String) (summary : String) : Bool :=
  if severity = .medium then false
  else if confidence < 0.70 then false
  else if severity = .high ∧ hasRedFlags symptoms (some summary) = false then
    false
  else if severity = .low ∧ hasRedFlags symptoms (some summary) = true then
    false
  else true

/-- One character as `JSON.stringify` emits it inside a string literal,
by character code: 34 quote, 92 backslash, 10/13/9 become backslash-n,
backslash-r, backslash-t (110, 114, 116); rarer control characters are
kept verbatim, as none occur in the embedded strings. -/
def jsonEscapeChar (c : Char) : List Char :=
  if c.toNat = 34 then [Char.ofNat 92, Char.ofNat 34]
  else if c.toNat = 92 then [Char.ofNat 92, Char.ofNat 92]
  else if c.toNat = 10 then [Char.ofNat 92, Char.ofNat 110]
  else if c.toNat = 13 then [Char.ofNat 92, Char.ofNat 114]
  else if c.toNat = 9 then [Char.ofNat 92, Char.ofNat 116]
  else [c]

/-- JSON string escaping as performed by `JSON.stringify`. -/
def jsonEscape (s : String) : String :=
  String.mk ((s.data.map jsonEscapeChar).flatten)

/-- A JSON string literal. -/
def jsonQuote (s : String) : String :=
  "\"" ++ jsonEscape s ++ "\""

/-- `JSON.stringify(cloudResult)` for the four-field `CaseAnalysis` record. -/
def jsonStringifyCase (c : CaseAnalysis) : String :=
  "\x7b" ++ jsonQuote "symptoms" ++ ":" ++ jsonQuote c.symptoms ++ "," ++
    jsonQuote "diagnosis_draft" ++ ":" ++ jsonQuote c.diagnosis_draft ++ "," ++
    jsonQuote "critique" ++ ":" ++ jsonQuote c.critique ++ "," ++
    jsonQuote "final_output" ++ ":" ++ jsonQuote c.final_output ++ "\x7d"

/-- The severity enum rendered into template strings. -/
def severityToString : SeverityLevel → String
  | .low => "low"
  | .medium => "medium"
  | .high => "high"

/-- `` `${confidence}` `` — JavaScript number printing for the two-decimal
rationals produced by `calculateConfidenceScore` (trailing zeros dropped). -/
def ratConfToString (q : ℚ) : String :=
  let n : Int := round (q * 100)
  let m := n.natAbs
  let sign := if n < 0 then "-" else ""
  let ip := m / 100
  let fp := m % 100
  if fp = 0 then sign ++ Nat.repr ip
  else if fp % 10 = 0 then sign ++ Nat.repr ip ++ "." ++ Nat.repr (fp / 10)
  else
    sign ++ Nat.repr ip ++ "." ++ (if fp < 10 then "0" else "") ++ Nat.repr fp

/-- Parse cloud analysis response into hybrid result format.  `cloudParse`
models the `JSON.parse(cloudResult.final_output)` call: `none` is the catch
branch, which treats `final_output` as the summary. -/
def parseCloudResponse (cloudParse : String → Option CloudParsed)
    (cloudResult : CaseAnalysis) (fullLatency : Nat) : HybridAnalysisResult :=
  let parsedOutput : CloudParsed :=
    match cloudParse cloudResult.final_output with
    | some p => p
    | none =>
      { symptoms := none, severity := none,
        summary := some cloudResult.final_output, differential := none,
        recommendations := none, reasoning := none, confidence := none }
  { symptoms := parsedOutput.symptoms.getD [cloudResult.symptoms]
    severity := parsedOutput.severity.getD .medium
    summary := jsOr (parsedOutput.summary.getD "") cloudResult.final_output
    differential := parsedOutput.differential.getD []
    recommendations := parsedOutput.recommendations.getD []
    reasoning :=
      jsOr (parsedOutput.reasoning.getD "") (jsOr cloudResult.critique "")
    fullResponse := jsonStringifyCase cloudResult
    source := .cloud
    confidence := 0.75
    wasCalibrated := false
    fallbackReason := none
    inferenceTime := fullLatency
    tokensGenerated := none
    edgeLatency := none
    cloudLatency := some fullLatency }

/-- The cloud-fallback half of `analyzeHybrid` (attempt 2 and the
both-failed handling), with the edge attempt's outcome carried in. -/
def analyzeHybridFallback (cloudParse : String → Option CloudParsed)
    (cloudAttempt : Except String CaseAnalysis)
    (edgeResultOpt : Option EdgeInferenceResult)
    (edgeParsedOpt : Option ParsedEdgeResult) (edgeErrorOpt : Option String)
    (tCloudDone tLastResort : Nat) : Except String HybridAnalysisResult :=
  match cloudAttempt with
  | .ok cloudResult =>
    let result := parseCloudResponse cloudParse cloudResult tCloudDone
    let fallbackReason : String :=
      match edgeErrorOpt with
      | some e => "Edge failed: " ++ e
      | none =>
        match edgeParsedOpt with
        | some p =>
          let confidence := calculateConfidenceScore p.severity p.symptoms
            p.summary ((edgeResultOpt.bind (fun er => er.calibrated)).getD false)
          "Edge uncertain: severity=" ++ severityToString p.severity ++
            ", confidence=" ++ ratConfToString confidence
        | none => "Edge returned unparsable response"
    .ok { result with fallbackReason := some fallbackReason }
  | .error cloudError =>
    match edgeParsedOpt, edgeResultOpt with
    | some p, some er =>
      let confidence := calculateConfidenceScore p.severity p.symptoms
        p.summary (er.calibrated.getD false)
      .ok
        { symptoms := p.symptoms
          severity := p.severity
          summary := p.summary
          differential := p.differential
          recommendations := p.recommendations
          reasoning := p.reasoning
          fullResponse := er.response
          source := .edge
          confidence := confidence
          wasCalibrated := er.calibrated.getD false
          fallbackReason := some ("Cloud failed (" ++ cloudError ++
            "), using uncertain edge result")
          inferenceTime := tLastResort
          tokensGenerated := some er.tokensGenerated
          edgeLatency := some er.inferenceTime
          cloudLatency := none }
    | _, _ =>
      .error ("Hybrid analysis failed. Edge: " ++
        jsOr (edgeErrorOpt.getD "") "unknown" ++ ", Cloud: " ++ cloudError)

/-- Main hybrid analysis function.  `parseEdge` models
`parseEdgeResponse` (a `JSON.parse`-backed partial parser); `edgeAttempt`
and `cloudAttempt` are the backend invocation outcomes; the three `Nat`
arguments are the `Date.now() - startTime` values measured at the three
return sites. -/
def analyzeHybrid (parseEdge : String → Option ParsedEdgeResult)
    (cloudParse : String → Option CloudParsed)
    (edgeAttempt : Except String EdgeInferenceResult)
    (cloudAttempt : Except String CaseAnalysis)
    (tEdgeAccept tCloudDone tLastResort : Nat) :
    Except String HybridAnalysisResult :=
  match edgeAttempt with
  | .error e =>
    analyzeHybridFallback cloudParse cloudAttempt none none (some e)
      tCloudDone tLastResort
  | .ok edgeResult =>
    match parseEdge edgeResult.response with
    | none =>
      -- the source throws "Failed to parse edge response" inside the try
      -- block, after `edgeResult` was already assigned
      analyzeHybridFallback cloudParse cloudAttempt (some edgeResult) none
        (some "Failed to parse edge response") tCloudDone tLastResort
    | some edgeParsed =>
      let confidence := calculateConfidenceScore edgeParsed.severity
        edgeParsed.symptoms edgeParsed.summary
        (edgeResult.calibrated.getD false)
      if isEdgeConfident edgeParsed.severity confidence edgeParsed.symptoms
          edgeParsed.summary then
        .ok
          { symptoms := edgeParsed.symptoms
            severity := edgeParsed.severity
            summary := edgeParsed.summary
            differential := edgeParsed.differential
            recommendations := edgeParsed.recommendations
            reasoning := edgeParsed.reasoning
            fullResponse := edgeResult.response
            source := .edge
            confidence := confidence
            wasCalibrated := edgeResult.calibrated.getD false
            fallbackReason := none
            inferenceTime := tEdgeAccept
            tokensGenerated := some edgeResult.tokensGenerated
            edgeLatency := some edgeResult.inferenceTime
            cloudLatency := none }
      else
        analyzeHybridFallback cloudParse cloudAttempt (some edgeResult)
          (some edgeParsed) none tCloudDone tLastResort

/-- Substring containment on strings, for the error-message claims. -/
def containsStr (hay pat : String) : Bool :=
  containsSub hay.data pat.data

/-- Modelled from the spec's words (§4.4, decision confidence), for
comparison with `calculateConfidenceScore`: `high` with ≥2 red flags →
0.92, with exactly 1 → 0.85, with 0 → 0.65; `low` with minor-only symptoms
→ 0.88, with 0 red flags → 0.75, with any red flag → 0.55; `medium` always
0.50; +0.05 boost capped at 0.95 when the calibrator made a correction. -/
def decisionConfidenceSpec (severity : SeverityLevel) (symptoms : List String)
    (summary : String) (wasCalibrated : Bool) : ℚ :=
  let base : ℚ :=
    match severity with
    | .high =>
      if countRedFlags symptoms (some summary) ≥ 2 then 0.92
      else if countRedFlags symptoms (some summary) = 1 then 0.85
      else 0.65
    | .low =>
      if hasOnlyMinorSymptoms symptoms (some summary) then 0.88
      else if countRedFlags symptoms (some summary) = 0 then 0.75
      else 0.55
    | .medium => 0.50
  if wasCalibrated then min 0.95 (base + 0.05) else base

/-! ## Confidence scoring (`confidence.ts`)

Temperature-scaled confidence.  JavaScript float arithmetic
(`Math.exp`, `Math.sqrt`) is idealized over `ℝ`. -/

/-- Calibration quality indicator. -/
inductive Reliability where
  | high
  | medium
  | low
deriving DecidableEq, Repr

/-- Calibrated confidence score with uncertainty bounds. -/
structure ConfidenceScore where
  raw : ℝ
  calibrated : ℝ
  uncertainty : ℝ
  reliability : Reliability
  description : String

/-- Default temperature scaling parameter.  `SEVERITY_TEMPERATURE[severity]
|| DEFAULT_TEMPERATURE` can never fall back to it: the severity union type
covers the three record keys and every value is truthy. -/
def DEFAULT_TEMPERATURE : ℝ := 1.3

/-- Severity-specific temperature adjustments for clinical safety. -/
noncomputable def SEVERITY_TEMPERATURE : SeverityLevel → ℝ
  | .high => 1.1
  | .medium => 1.3
  | .low => 1.5

/-- Sigmoid activation function. -/
noncomputable def sigmoid (x : ℝ) : ℝ :=
  1 / (1 + Real.exp (-x))

/-- `(x).toFixed(1)` for the real idealization of a JavaScript number. -/
noncomputable def toFixed1Real (x : ℝ) : String :=
  let n : ℤ := round (x * 10)
  (if n < 0 then "-" else "") ++ Nat.repr (n.natAbs / 10) ++ "." ++
    Nat.repr (n.natAbs % 10)

set_option linter.unusedVariables false in
/-- Generate human-readable confidence description.  The `severity`
argument is accepted and ignored, as in the source. -/
noncomputable def getConfidenceDescription (confidence : ℝ)
    (reliability : Reliability) (severity : SeverityLevel) : String :=
  let confidenceLevel :=
    if confidence ≥ 0.85 then "High"
    else if confidence ≥ 0.65 then "Moderate"
    else "Low"
  let reliabilityNote :=
    match reliability with
    | .high => "Model is well-calibrated for this case type."
    | .medium => "Some uncertainty exists; clinician review recommended."
    | .low => "Significant uncertainty; treat as preliminary assessment."
  confidenceLevel ++ " confidence (" ++ toFixed1Real (confidence * 100) ++
    "%). " ++ reliabilityNote

/-- The uncertainty block of `calculateConfidence`: base uncertainty 0.1,
replaced by the sample standard deviation when more than one ensemble score
is supplied. -/
noncomputable def ensembleUncertainty (ensembleScores : Option (List ℝ)) :
    ℝ :=
  match ensembleScores with
  | some scores =>
    if 1 < scores.length then
      let mean := scores.sum / (scores.length : ℝ)
      let variance :=
        (scores.map (fun s => (s - mean) ^ 2)).sum / (scores.length : ℝ)
      Real.sqrt variance
    else 0.1
  | none => 0.1

/-- Calculate calibrated confidence score with uncertainty bounds. -/
noncomputable def calculateConfidence (rawLogit : ℝ)
    (severity : SeverityLevel) (ensembleScores : Option (List ℝ)) :
    ConfidenceScore :=
  let temp := SEVERITY_TEMPERATURE severity
  let rawProb := sigmoid rawLogit
  let calibratedProb := sigmoid (rawLogit / temp)
  let uncertainty0 := ensembleUncertainty ensembleScores
  let uncertainty :=
    if calibratedProb < 0.6 ∨ calibratedProb > 0.95 then
      min (uncertainty0 * 1.5) 0.25
    else uncertainty0
  let reliability :=
    if uncertainty < 0.1 ∧ calibratedProb > 0.7 then Reliability.high
    else if uncertainty < 0.2 then Reliability.medium
    else Reliability.low
  { raw := rawProb
    calibrated := calibratedProb
    uncertainty := uncertainty
    reliability := reliability
    description := getConfidenceDescription calibratedProb reliability
      severity }

/-! ## Retrieval index (`retrieval.ts`)

BM25 over the clinical knowledge base.  The two pieces of module-level
state are made explicit: the corpus (`loadKnowledgeBase` caches a fixed
constant, so the document list is an argument here) and the lazily built
IDF table, threaded in and out of the scoring functions as an
`Option (String → ℝ)`.  `Math.log` forces the scores into `ℝ`. -/

/-- A document of the retrieval corpus.  The `metadata` record is carried
as an association list. -/
structure RetrievalDoc where
  id : String
  source : String
  text : String
  metadata : List (String × String)
deriving DecidableEq, Repr

/-- A retrieval citation. -/
structure Citation where
  id : String
  source : String
  snippet : String
  score : ℝ
  metadata : List (String × String)

/-- The `{citations, context}` pair returned by `hybridRetrieve`. -/
structure HybridRetrievalResult where
  citations : List Citation
  context : String

/-- A document paired with its BM25 score. -/
structure ScoredDoc where
  doc : RetrievalDoc
  score : ℝ

/-- Maximal runs of non-whitespace characters: `split(/\s+/)` followed by
`filter(Boolean)`. -/
def splitRunsAux : List Char → List Char → List (List Char)
  | [], acc => if acc.isEmpty then [] else [acc.reverse]
  | c :: t, acc =>
    if isJsSpace c then
      if acc.isEmpty then splitRunsAux t []
      else acc.reverse :: splitRunsAux t []
    else splitRunsAux t (c :: acc)

/-- Lightweight tokenizer: lower-case, replace every character outside
`[a-z0-9\s]` by a space, split on whitespace runs, drop empties. -/
def tokenize (text : String) : List String :=
  let cs := text.data.map Char.toLower
  let cs2 := cs.map (fun c =>
    if ('a' ≤ c ∧ c ≤ 'z') ∨ ('0' ≤ c ∧ c ≤ '9') ∨ isJsSpace c then c
    else ' ')
  (splitRunsAux cs2 []).map String.mk

/-- The lazily built IDF table (`buildIdf` plus the `idfCache.get(t) || 0`
lookup): tokens appearing in no document are absent from the `Map` and read
as 0; for present tokens the stored value `ln((N+1)/(df+1)) + 1 ≥ 1` is
never falsy. -/
noncomputable def idfOf (docs : List RetrievalDoc) (tok : String) : ℝ :=
  let df := (docs.filter (fun d => tok ∈ tokenize d.text)).length
  if 0 < df then
    Real.log (((docs.length : ℝ) + 1) / ((df : ℝ) + 1)) + 1
  else 0

/-- BM25 scoring of every document against a query, with the IDF cache
threaded (`if (!idfCache) idfCache = buildIdf(docs)`). -/
noncomputable def bm25Score (idfCache : Option (String → ℝ)) (query : String)
    (docs : List RetrievalDoc) : List ScoredDoc × (String → ℝ) :=
  let idf :=
    match idfCache with
    | some m => m
    | none => idfOf docs
  let avgLen : ℝ :=
    ((docs.map (fun d => ((tokenize d.text).length : ℝ))).sum) /
      ((max 1 docs.length : ℕ) : ℝ)
  let tokens := tokenize query
  let k1 : ℝ := 1.5
  let b : ℝ := 0.75
  (docs.map (fun doc =>
    let docTokens := tokenize doc.text
    let score := (tokens.map (fun t =>
      let idfv := idf t
      let f : ℝ := ((docTokens.filter (fun x => x = t)).length : ℝ)
      let denom := f + k1 * (1 - b + (b * (docTokens.length : ℝ)) / avgLen)
      idfv * ((f * (k1 + 1)) / max (1e-6 : ℝ) denom))).sum
    { doc := doc, score := score }), idf)

/-- The comparator `(a, b) => b.score - a.score` handed to the stable
`Array.prototype.sort`: `a` precedes `b` exactly when `b.score ≤ a.score`. -/
noncomputable def scoreDescBool (a b : ScoredDoc) : Bool :=
  decide (b.score ≤ a.score)

/-- `text.slice(0, n)`. -/
def takeStr (n : Nat) (s : String) : String :=
  String.mk (s.data.take n)

/-- `Number(x.toFixed(4))`: round to four decimal places. -/
noncomputable def roundTo4 (x : ℝ) : ℝ :=
  ((round (x * 10000) : ℤ) : ℝ) / 10000

/-- Drop trailing zeros from the fractional digits of a four-decimal
number. -/
def stripTrailingZeros4 (fp : Nat) : List Nat :=
  let d1 := fp / 1000
  let d2 := fp / 100 % 10
  let d3 := fp / 10 % 10
  let d4 := fp % 10
  if d4 ≠ 0 then [d1, d2, d3, d4]
  else if d3 ≠ 0 then [d1, d2, d3]
  else if d2 ≠ 0 then [d1, d2]
  else [d1]

/-- `` `${score}` `` for a four-decimal real: JavaScript number printing
with trailing zeros dropped. -/
noncomputable def realToString4 (x : ℝ) : String :=
  let n : ℤ := round (x * 10000)
  let m := n.natAbs
  let sign := if n < 0 then "-" else ""
  let ip := m / 10000
  let fp := m % 10000
  if fp = 0 then sign ++ Nat.repr ip
  else
    sign ++ Nat.repr ip ++ "." ++
      String.mk ((stripTrailingZeros4 fp).map (fun d => Char.ofNat (48 + d)))

/-- `hybridRetrieve`: BM25 ranking, double descending sort with slicing,
snippet truncation and the newline-joined context block. -/
noncomputable def hybridRetrieve (idfCache : Option (String → ℝ))
    (query : String) (docs : List RetrievalDoc) (k : Nat) :
    HybridRetrievalResult × (String → ℝ) :=
  let res := bm25Score idfCache query docs
  let bm25 := res.1
  let topBm25 := (bm25.mergeSort scoreDescBool).take (max (k * 2) (k + 2))
  let ranked := (topBm25.mergeSort scoreDescBool).take k
  let citations := ranked.map (fun r =>
    { id := r.doc.id
      source := r.doc.source
      snippet := takeStr 400 r.doc.text
      score := roundTo4 r.score
      metadata := r.doc.metadata : Citation })
  let context := String.intercalate "\n\n" (citations.map (fun c =>
    "Source " ++ c.id ++ " (score " ++ realToString4 c.score ++ "): " ++
      c.snippet))
  ({ citations := citations, context := context }, res.2)

/-- Modelled from the spec's words (§4.2), for comparison with
`bm25Score`: `score(d) = Σ_t idf(t) · f(t,d)·(k1+1) / (f(t,d) +
k1·(1−b+b·|d|/avgdl))` with `idf(t) = ln((N+1)/(df(t)+1)) + 1`,
`k1 = 1.5`, `b = 0.75`, and `avgdl` the average document token length. -/
noncomputable def bm25SpecScore (query : String) (docs : List RetrievalDoc)
    (doc : RetrievalDoc) : ℝ :=
  let N : ℝ := (docs.length : ℝ)
  let avgdl : ℝ :=
    ((docs.map (fun d => ((tokenize d.text).length : ℝ))).sum) / N
  ((tokenize query).map (fun t =>
    let df : ℝ := ((docs.filter (fun d => t ∈ tokenize d.text)).length : ℝ)
    let idfv := Real.log ((N + 1) / (df + 1)) + 1
    let f : ℝ := (((tokenize doc.text).filter (fun x => x = t)).length : ℝ)
    idfv * ((f * (1.5 + 1)) /
      (f + 1.5 * (1 - 0.75 +
        (0.75 * ((tokenize doc.text).length : ℝ)) / avgdl)))) ).sum

/-- The one-document corpus used by the retrieval witness. -/
def sampleDocs : List RetrievalDoc :=
  [{ id := "cardio-001", source := "clinical_guidelines",
     text := "chest pain", metadata := [] }]

/-! ## Theorems -/

/-- A string starting with a non-empty literal is non-empty. -/
theorem append_left_ne_empty (s t : String) (h : s ≠ "") : s ++ t ≠ "" := by
  intro heq
  apply h
  have h2 := congrArg String.data heq
  rw [String.data_append] at h2
  exact String.ext (List.append_eq_nil.mp h2).1

/-- In the post-gate calibration, a severity change forces `wasCalibrated`
and a non-empty note. -/
theorem calibrateSeverityPost_changed (ps : SeverityLevel)
    (t1 t2 t3 lm hu ar mo : Bool) (adj : Int)
    (h : (calibrateSeverityPost ps t1 t2 t3 lm hu ar mo adj).severity ≠ ps) :
    (calibrateSeverityPost ps t1 t2 t3 lm hu ar mo adj).wasCalibrated = true ∧
      ∃ r, (calibrateSeverityPost ps t1 t2 t3 lm hu ar mo adj).note = some r ∧
        r ≠ "" := by
  unfold calibrateSeverityPost at h ⊢
  set st := calibrateStep ps t1 t2 t3 lm hu ar mo adj with hst
  dsimp only at h ⊢
  rw [if_neg h]
  refine ⟨rfl, ?_⟩
  rw [if_pos rfl]
  exact ⟨_, rfl, append_left_ne_empty _ _ (by decide)⟩

/-- C1: whenever `calibrateSeverity` returns a severity different from the
predicted one, `wasCalibrated` is `true` and the note is a non-empty string. -/
theorem calibrateSeverity_changed_implies_flag (s : SeverityLevel)
    (sy : List String) (su : Option String) (c : Option ℚ) (a : Option Nat)
    (h : (calibrateSeverity s sy su c a).severity ≠ s) :
    (calibrateSeverity s sy su c a).wasCalibrated = true ∧
      ∃ r, (calibrateSeverity s sy su c a).note = some r ∧ r ≠ "" := by
  unfold calibrateSeverity at h ⊢
  cases c with
  | none => exact calibrateSeverityPost_changed _ _ _ _ _ _ _ _ _ h
  | some q =>
    dsimp only at h ⊢
    by_cases hq : (!checkConfidenceThreshold q (9/10)) = true
    · rw [if_pos hq] at h ⊢
      exact ⟨rfl, _, rfl,
        append_left_ne_empty _ _ (append_left_ne_empty _ _ (by decide))⟩
    · rw [if_neg hq] at h ⊢
      exact calibrateSeverityPost_changed _ _ _ _ _ _ _ _ _ h

/-- Witness for C1: predicted `high` with only a sore throat is calibrated
down, so the post-condition fires at this input. -/
theorem calibrateSeverity_changed_implies_flag_witness :
    (calibrateSeverity .high ["sore throat"] none none none).severity ≠
        .high ∧
      (calibrateSeverity .high ["sore throat"] none none none).wasCalibrated =
          true ∧
        ∃ r, (calibrateSeverity .high ["sore throat"] none none none).note =
          some r ∧ r ≠ "" :=
  ⟨by decide,
    calibrateSeverity_changed_implies_flag .high ["sore throat"] none none none
      (by decide)⟩

/-- C2: a supplied confidence below 0.90 forces severity `medium`, whatever
the predicted severity, symptoms, summary or age are — the abstain rule runs
before every other calibration check. -/
theorem calibrateSeverity_abstain (s : SeverityLevel) (sy : List String)
    (su : Option String) (a : Option Nat) (c : ℚ) (h : c < 0.90) :
    (calibrateSeverity s sy su (some c) a).severity = .medium ∧
      (calibrateSeverity s sy su (some c) a).wasCalibrated = true := by
  have hc : checkConfidenceThreshold c (9/10) = false := by
    unfold checkConfidenceThreshold
    rw [decide_eq_false_iff_not]
    rw [not_le]
    exact lt_of_lt_of_eq h (by norm_num)
  unfold calibrateSeverity
  dsimp only
  rw [hc]
  exact ⟨rfl, rfl⟩

/-- Witness for C2: confidence 0.5 on a Tier-1 presentation still abstains
to `medium`. -/
theorem calibrateSeverity_abstain_witness :
    ((1 : ℚ)/2 < 0.90) ∧
      ((calibrateSeverity .high ["cardiac arrest"] none (some (1/2))
            none).severity = .medium ∧
        (calibrateSeverity .high ["cardiac arrest"] none (some (1/2))
            none).wasCalibrated = true) :=
  ⟨by norm_num,
    calibrateSeverity_abstain .high ["cardiac arrest"] none none (1/2)
      (by norm_num)⟩

/-- C3: with no Tier-1 and no Tier-2 keyword present, a predicted `low`
severity (with no confidence supplied) is returned unchanged — Tier-3 flags,
minor markers, urgent keywords and age adjustment never escalate `low`. -/
theorem calibrateSeverity_low_sticky (sy : List String) (su : Option String)
    (a : Option Nat) (h1 : hasTier1Flags sy su = false)
    (h2 : hasTier2Flags sy su = false) :
    (calibrateSeverity .low sy su none a).severity = .low := by
  unfold calibrateSeverity calibrateSeverityPost calibrateStep
  dsimp only
  rw [h1, h2]
  rfl

/-- Witness for C3: a fracture (urgent-but-stable, Tier-3-free) with an
elderly age marker stays `low`. -/
theorem calibrateSeverity_low_sticky_witness :
    (hasTier1Flags ["fracture", "severe pain"] none = false) ∧
      (hasTier2Flags ["fracture", "severe pain"] none = false) ∧
      (calibrateSeverity .low ["fracture", "severe pain"] none none
          (some 80)).severity = .low :=
  ⟨by decide, by decide,
    calibrateSeverity_low_sticky ["fracture", "severe pain"] none (some 80)
      (by decide) (by decide)⟩

/-- C9: re-calibration is not idempotent — a Tier-2 keyword moves `low` to
`medium` on the first pass and `medium` to `high` on the second. -/
theorem calibrateSeverity_not_idempotent :
    ∃ (s : SeverityLevel) (symptoms : List String),
      (calibrateSeverity (calibrateSeverity s symptoms none none none).severity
          symptoms none none none).severity ≠
        (calibrateSeverity s symptoms none none none).severity :=
  ⟨.low, ["severe trauma"], by decide⟩

/-- C5: the decision-confidence heuristic computes exactly the values the
spec lists, including the +0.05 boost capped at 0.95. -/
theorem calculateConfidenceScore_eq_spec (s : SeverityLevel)
    (sy : List String) (su : String) (wc : Bool) :
    calculateConfidenceScore s sy su wc = decisionConfidenceSpec s sy su wc := by
  unfold calculateConfidenceScore decisionConfidenceSpec
  cases s <;> cases wc <;> dsimp only <;> split_ifs <;>
    norm_num [round_eq, min_def]

/-- `containsSub hay []` always holds. -/
theorem containsSub_nil (hay : List Char) : containsSub hay [] = true := by
  cases hay <;> simp [containsSub, List.isPrefixOf]

/-- A list is a boolean prefix of itself extended on the right. -/
theorem isPrefixOf_append_self (p b : List Char) :
    p.isPrefixOf (p ++ b) = true := by
  induction p with
  | nil => simp [List.isPrefixOf]
  | cons c t ih => simp [List.isPrefixOf, ih]

/-- `containsSub` finds a pattern sitting anywhere inside the text. -/
theorem containsSub_append_middle (a p b : List Char) :
    containsSub (a ++ p ++ b) p = true := by
  induction a with
  | nil =>
    cases p with
    | nil => simpa using containsSub_nil b
    | cons c t =>
      have h := isPrefixOf_append_self (c :: t) b
      simp only [List.nil_append, containsSub]
      rw [h]
      rfl
  | cons c a ih =>
    simp only [List.cons_append, containsSub, List.append_eq]
    rw [ih]
    simp

/-- `containsStr` over explicit append decompositions. -/
theorem containsStr_of_append (x y z : String) :
    containsStr (x ++ y ++ z) y = true := by
  unfold containsStr
  have h : (x ++ y ++ z).data = x.data ++ y.data ++ z.data := by
    rw [String.data_append, String.data_append]
  rw [h]
  exact containsSub_append_middle _ _ _

/-- `containsStr` finds a suffix. -/
theorem containsStr_append_right (x y : String) :
    containsStr (x ++ y) y = true := by
  unfold containsStr
  rw [String.data_append]
  have h := containsSub_append_middle x.data y.data []
  rwa [List.append_nil] at h

/-- `containsStr` with the empty pattern always holds. -/
theorem containsStr_empty (x : String) : containsStr x "" = true :=
  containsSub_nil _

/-- C6: the edge-confidence gate rejects exactly on the four listed
conditions, and when it accepts, `analyzeHybrid` terminates with the edge
result — `source = edge`, no `fallbackReason`, and a value independent of
the cloud backend, which is therefore never consulted. -/
theorem isEdgeConfident_characterization :
    (∀ (s : SeverityLevel) (c : ℚ) (sy : List String) (su : String),
      isEdgeConfident s c sy su = false ↔
        (s = .medium ∨ c < 0.70 ∨
          (s = .high ∧ hasRedFlags sy (some su) = false) ∨
          (s = .low ∧ hasRedFlags sy (some su) = true))) ∧
    (∀ (parseEdge : String → Option ParsedEdgeResult)
      (cloudParse : String → Option CloudParsed)
      (edgeAttempt : Except String EdgeInferenceResult)
      (cloudAttempt : Except String CaseAnalysis)
      (er : EdgeInferenceResult) (p : ParsedEdgeResult) (tE tC tL : Nat),
      edgeAttempt = Except.ok er →
      parseEdge er.response = some p →
      isEdgeConfident p.severity
        (calculateConfidenceScore p.severity p.symptoms p.summary
          (er.calibrated.getD false)) p.symptoms p.summary = true →
      analyzeHybrid parseEdge cloudParse edgeAttempt cloudAttempt tE tC tL =
        Except.ok
          { symptoms := p.symptoms
            severity := p.severity
            summary := p.summary
            differential := p.differential
            recommendations := p.recommendations
            reasoning := p.reasoning
            fullResponse := er.response
            source := .edge
            confidence := calculateConfidenceScore p.severity p.symptoms
              p.summary (er.calibrated.getD false)
            wasCalibrated := er.calibrated.getD false
            fallbackReason := none
            inferenceTime := tE
            tokensGenerated := some er.tokensGenerated
            edgeLatency := some er.inferenceTime
            cloudLatency := none }) := by
  constructor
  · intro s c sy su
    unfold isEdgeConfident
    split_ifs with h1 h2 h3 h4 <;> simp_all
  · intro parseEdge cloudParse edgeAttempt cloudAttempt er p tE tC tL hea hp hg
    subst hea
    unfold analyzeHybrid
    dsimp only
    rw [hp]
    dsimp only
    rw [if_pos hg]

/-- Sample edge backend result used by the hybrid-orchestrator witnesses. -/
def sampleEdgeResult : EdgeInferenceResult :=
  { response := "edge response", tokensGenerated := 5, inferenceTime := 3,
    severity := none, calibrated := some false }

/-- Sample parsed edge candidate with clear red flags. -/
def sampleParsedHigh : ParsedEdgeResult :=
  { severity := .high, summary := "acute mi presentation",
    symptoms := ["chest pain", "shortness of breath"], differential := [],
    recommendations := [], reasoning := "", confidence := none }

/-- Sample cloud analysis payload. -/
def sampleCase : CaseAnalysis :=
  { symptoms := "patient symptoms", diagnosis_draft := "draft",
    critique := "critique text", final_output := "final output text" }

/-- The gate accepts a `high` candidate with enough confidence and a red
flag present. -/
theorem isEdgeConfident_high_accepts (c : ℚ) (sy : List String) (su : String)
    (h70 : ¬ c < 0.70) (hrf : hasRedFlags sy (some su) = true) :
    isEdgeConfident .high c sy su = true := by
  unfold isEdgeConfident
  rw [if_neg (by simp), if_neg h70, if_neg (by simp [hrf]),
    if_neg (by simp)]

/-- `calculateConfidenceScore` on an uncalibrated `high` candidate with at
least two matched red flags is 0.92. -/
theorem calculateConfidenceScore_high_two (sy : List String) (su : String)
    (h2 : countRedFlags sy (some su) ≥ 2) :
    calculateConfidenceScore .high sy su false = 0.92 := by
  unfold calculateConfidenceScore
  dsimp only
  rw [if_pos h2]
  norm_num

/-- Witness for C6: a high-severity edge candidate with two red flags
passes the gate and is returned as the edge result. -/
theorem isEdgeConfident_characterization_witness :
    (Except.ok sampleEdgeResult =
        (Except.ok sampleEdgeResult : Except String EdgeInferenceResult)) ∧
      ((fun _ => some sampleParsedHigh : String → Option ParsedEdgeResult)
          sampleEdgeResult.response = some sampleParsedHigh) ∧
      (isEdgeConfident sampleParsedHigh.severity
          (calculateConfidenceScore sampleParsedHigh.severity
            sampleParsedHigh.symptoms sampleParsedHigh.summary
            (sampleEdgeResult.calibrated.getD false))
          sampleParsedHigh.symptoms sampleParsedHigh.summary = true) ∧
      analyzeHybrid (fun _ => some sampleParsedHigh) (fun _ => none)
          (Except.ok sampleEdgeResult) (Except.error "cloud unavailable")
          7 8 9 =
        Except.ok
          { symptoms := sampleParsedHigh.symptoms
            severity := sampleParsedHigh.severity
            summary := sampleParsedHigh.summary
            differential := sampleParsedHigh.differential
            recommendations := sampleParsedHigh.recommendations
            reasoning := sampleParsedHigh.reasoning
            fullResponse := sampleEdgeResult.response
            source := .edge
            confidence := calculateConfidenceScore sampleParsedHigh.severity
              sampleParsedHigh.symptoms sampleParsedHigh.summary
              (sampleEdgeResult.calibrated.getD false)
            wasCalibrated := sampleEdgeResult.calibrated.getD false
            fallbackReason := none
            inferenceTime := 7
            tokensGenerated := some sampleEdgeResult.tokensGenerated
            edgeLatency := some sampleEdgeResult.inferenceTime
            cloudLatency := none } := by
  have hc : calculateConfidenceScore sampleParsedHigh.severity
      sampleParsedHigh.symptoms sampleParsedHigh.summary
      (sampleEdgeResult.calibrated.getD false) = 0.92 :=
    calculateConfidenceScore_high_two _ _ (by decide)
  have hg : isEdgeConfident sampleParsedHigh.severity
      (calculateConfidenceScore sampleParsedHigh.severity
        sampleParsedHigh.symptoms sampleParsedHigh.summary
        (sampleEdgeResult.calibrated.getD false))
      sampleParsedHigh.symptoms sampleParsedHigh.summary = true := by
    rw [hc]
    exact isEdgeConfident_high_accepts _ _ _ (by norm_num) (by decide)
  exact ⟨rfl, rfl, hg,
    isEdgeConfident_characterization.2 (fun _ => some sampleParsedHigh)
      (fun _ => none) (Except.ok sampleEdgeResult)
      (Except.error "cloud unavailable") sampleEdgeResult sampleParsedHigh
      7 8 9 rfl rfl hg⟩

/-- C7: when the cloud backend fails, a parsed edge candidate (even one
that failed the gate) is returned as an `edge` result with the exact
"Cloud failed (..)" fallback reason; with no parsed edge candidate, the
thrown message contains both failure messages. -/
theorem analyzeHybrid_cloud_failure :
    (∀ (parseEdge : String → Option ParsedEdgeResult)
      (cloudParse : String → Option CloudParsed)
      (er : EdgeInferenceResult) (p : ParsedEdgeResult)
      (tE tC tL : Nat) (cloudMsg : String),
      parseEdge er.response = some p →
      isEdgeConfident p.severity
        (calculateConfidenceScore p.severity p.symptoms p.summary
          (er.calibrated.getD false)) p.symptoms p.summary = false →
      analyzeHybrid parseEdge cloudParse (Except.ok er)
          (Except.error cloudMsg) tE tC tL =
        Except.ok
          { symptoms := p.symptoms
            severity := p.severity
            summary := p.summary
            differential := p.differential
            recommendations := p.recommendations
            reasoning := p.reasoning
            fullResponse := er.response
            source := .edge
            confidence := calculateConfidenceScore p.severity p.symptoms
              p.summary (er.calibrated.getD false)
            wasCalibrated := er.calibrated.getD false
            fallbackReason := some ("Cloud failed (" ++ cloudMsg ++
              "), using uncertain edge result")
            inferenceTime := tL
            tokensGenerated := some er.tokensGenerated
            edgeLatency := some er.inferenceTime
            cloudLatency := none }) ∧
    (∀ (parseEdge : String → Option ParsedEdgeResult)
      (cloudParse : String → Option CloudParsed)
      (tE tC tL : Nat) (edgeMsg cloudMsg : String),
      ∃ m, analyzeHybrid parseEdge cloudParse (Except.error edgeMsg)
          (Except.error cloudMsg) tE tC tL = Except.error m ∧
        containsStr m edgeMsg = true ∧ containsStr m cloudMsg = true) ∧
    (∀ (parseEdge : String → Option ParsedEdgeResult)
      (cloudParse : String → Option CloudParsed)
      (er : EdgeInferenceResult) (tE tC tL : Nat) (cloudMsg : String),
      parseEdge er.response = none →
      ∃ m, analyzeHybrid parseEdge cloudParse (Except.ok er)
          (Except.error cloudMsg) tE tC tL = Except.error m ∧
        containsStr m "Failed to parse edge response" = true ∧
        containsStr m cloudMsg = true) := by
  refine ⟨?_, ?_, ?_⟩
  · intro parseEdge cloudParse er p tE tC tL cloudMsg hp hg
    unfold analyzeHybrid
    dsimp only
    rw [hp]
    dsimp only
    rw [if_neg (by rw [hg]; exact Bool.false_ne_true)]
    rfl
  · intro parseEdge cloudParse tE tC tL edgeMsg cloudMsg
    refine ⟨_, rfl, ?_, ?_⟩
    · by_cases he : edgeMsg = ""
      · subst he
        exact containsStr_empty _
      · simp only [jsOr, Option.getD_some, if_neg he]
        rw [String.append_assoc]
        exact containsStr_of_append _ _ _
    · exact containsStr_append_right _ _
  · intro parseEdge cloudParse er tE tC tL cloudMsg hp
    unfold analyzeHybrid
    dsimp only
    rw [hp]
    refine ⟨_, rfl, ?_, ?_⟩
    · simp only [jsOr, Option.getD_some,
        if_neg (show ¬("Failed to parse edge response" = "") by decide)]
      rw [String.append_assoc]
      exact containsStr_of_append _ _ _
    · exact containsStr_append_right _ _

/-- Witness for C7: with both backends failing and no parsed candidate,
the thrown message carries both failure messages. -/
theorem analyzeHybrid_cloud_failure_witness :
    ∃ m, analyzeHybrid (fun _ => none) (fun _ => none)
        (Except.error "edge backend down") (Except.error "cloud 503")
        1 2 3 = Except.error m ∧
      containsStr m "edge backend down" = true ∧
      containsStr m "cloud 503" = true :=
  analyzeHybrid_cloud_failure.2.1 (fun _ => none) (fun _ => none) 1 2 3
    "edge backend down" "cloud 503"

/-- Every cloud-path result of `analyzeHybridFallback` is the
`parseCloudResponse` record with only `fallbackReason` updated. -/
theorem analyzeHybridFallback_cloud_fields
    (cloudParse : String → Option CloudParsed)
    (cloudAttempt : Except String CaseAnalysis)
    (ero : Option EdgeInferenceResult) (epo : Option ParsedEdgeResult)
    (eeo : Option String) (tC tL : Nat) (r : HybridAnalysisResult)
    (h : analyzeHybridFallback cloudParse cloudAttempt ero epo eeo tC tL =
      Except.ok r)
    (hs : r.source = .cloud) :
    r.confidence = 0.75 ∧ r.wasCalibrated = false := by
  unfold analyzeHybridFallback at h
  cases cloudAttempt with
  | ok c =>
    dsimp only at h
    rw [Except.ok.injEq] at h
    subst h
    exact ⟨rfl, rfl⟩
  | error ce =>
    dsimp only at h
    cases epo with
    | none => cases ero <;> exact absurd h (by simp)
    | some p =>
      cases ero with
      | none => exact absurd h (by simp)
      | some er =>
        dsimp only at h
        rw [Except.ok.injEq] at h
        subst h
        exact absurd hs (by simp)

/-- C10: `parseCloudResponse` always stamps confidence 0.75,
`wasCalibrated = false` and `source = cloud`, whatever the cloud payload
parses to; consequently every cloud-sourced result `analyzeHybrid` returns
has confidence 0.75 and `wasCalibrated = false` — neither the severity
calibrator nor the decision-confidence heuristic touches cloud results. -/
theorem cloud_results_fixed_confidence :
    (∀ (cloudParse : String → Option CloudParsed) (cr : CaseAnalysis)
      (lat : Nat),
      (parseCloudResponse cloudParse cr lat).confidence = 0.75 ∧
        (parseCloudResponse cloudParse cr lat).wasCalibrated = false ∧
        (parseCloudResponse cloudParse cr lat).source = .cloud) ∧
    (∀ (parseEdge : String → Option ParsedEdgeResult)
      (cloudParse : String → Option CloudParsed)
      (edgeAttempt : Except String EdgeInferenceResult)
      (cloudAttempt : Except String CaseAnalysis) (tE tC tL : Nat)
      (r : HybridAnalysisResult),
      analyzeHybrid parseEdge cloudParse edgeAttempt cloudAttempt tE tC tL =
        Except.ok r →
      r.source = .cloud →
      r.confidence = 0.75 ∧ r.wasCalibrated = false) := by
  constructor
  · intro cloudParse cr lat
    exact ⟨rfl, rfl, rfl⟩
  · intro parseEdge cloudParse edgeAttempt cloudAttempt tE tC tL r h hs
    unfold analyzeHybrid at h
    cases edgeAttempt with
    | error e =>
      exact analyzeHybridFallback_cloud_fields _ _ _ _ _ _ _ _ h hs
    | ok er =>
      dsimp only at h
      cases hp : parseEdge er.response with
      | none =>
        rw [hp] at h
        exact analyzeHybridFallback_cloud_fields _ _ _ _ _ _ _ _ h hs
      | some p =>
        rw [hp] at h
        dsimp only at h
        by_cases hg : isEdgeConfident p.severity
            (calculateConfidenceScore p.severity p.symptoms p.summary
              (er.calibrated.getD false)) p.symptoms p.summary = true
        · rw [if_pos hg] at h
          rw [Except.ok.injEq] at h
          subst h
          exact absurd hs (by simp)
        · rw [if_neg hg] at h
          exact analyzeHybridFallback_cloud_fields _ _ _ _ _ _ _ _ h hs

/-- Witness for C10: edge fails, cloud succeeds — the returned result is
cloud-sourced with confidence 0.75 and no calibration flag. -/
theorem cloud_results_fixed_confidence_witness :
    (analyzeHybrid (fun _ => none) (fun _ => none)
        (Except.error "edge down") (Except.ok sampleCase) 1 2 3 =
      Except.ok
        { parseCloudResponse (fun _ => none) sampleCase 2 with
          fallbackReason := some "Edge failed: edge down" }) ∧
      ({ parseCloudResponse (fun _ => none) sampleCase 2 with
          fallbackReason :=
            some "Edge failed: edge down" }.source = .cloud) ∧
      ({ parseCloudResponse (fun _ => none) sampleCase 2 with
          fallbackReason := some "Edge failed: edge down" }.confidence =
        0.75 ∧
        ({ parseCloudResponse (fun _ => none) sampleCase 2 with
            fallbackReason :=
              some "Edge failed: edge down" }.wasCalibrated = false)) :=
  ⟨rfl, rfl,
    cloud_results_fixed_confidence.2 (fun _ => none) (fun _ => none)
      (Except.error "edge down") (Except.ok sampleCase) 1 2 3 _ rfl rfl⟩

/-- The sigmoid denominator is positive. -/
theorem sigmoid_den_pos (x : ℝ) : 0 < 1 + Real.exp (-x) := by
  have h := Real.exp_pos (-x)
  linarith

/-- The sigmoid takes positive values. -/
theorem sigmoid_gt_zero (x : ℝ) : 0 < sigmoid x :=
  div_pos one_pos (sigmoid_den_pos x)

/-- The sigmoid stays below one. -/
theorem sigmoid_below_one (x : ℝ) : sigmoid x < 1 := by
  have hd := sigmoid_den_pos x
  have he := Real.exp_pos (-x)
  unfold sigmoid
  rw [div_lt_one hd]
  linarith

/-- The sigmoid is strictly monotone. -/
theorem sigmoid_strict_mono {x y : ℝ} (h : x < y) : sigmoid x < sigmoid y := by
  unfold sigmoid
  have hxy : Real.exp (-y) < Real.exp (-x) := Real.exp_lt_exp.mpr (by linarith)
  have hx : 0 < 1 + Real.exp (-x) := sigmoid_den_pos x
  have hy : 0 < 1 + Real.exp (-y) := sigmoid_den_pos y
  rw [div_lt_div_iff₀ hx hy]
  linarith

/-- The sigmoid is monotone. -/
theorem sigmoid_mono {x y : ℝ} (h : x ≤ y) : sigmoid x ≤ sigmoid y := by
  rcases lt_or_eq_of_le h with hlt | heq
  · exact le_of_lt (sigmoid_strict_mono hlt)
  · rw [heq]

/-- C4 counterexample: at raw logit −2 with severity `high` (temperature
1.1 ≥ 1), temperature scaling pulls the calibrated probability toward 0.5,
so `calibrated > raw` and the claimed `calibrated ≤ raw` fails. -/
theorem calculateConfidence_not_conservative :
    ¬ ((calculateConfidence (-2) .high none).calibrated ≤
        (calculateConfidence (-2) .high none).raw) := by
  have h : sigmoid (-2) < sigmoid ((-2) / SEVERITY_TEMPERATURE .high) := by
    apply sigmoid_strict_mono
    unfold SEVERITY_TEMPERATURE
    norm_num
  exact not_le.mpr h

/-- Every severity temperature is at least one. -/
theorem severity_temperature_ge_one (s : SeverityLevel) :
    1 ≤ SEVERITY_TEMPERATURE s := by
  cases s <;> unfold SEVERITY_TEMPERATURE <;> norm_num

/-- The uncertainty block stays in `[0, 1]` when the supplied ensemble
scores lie in `[0, 1]`. -/
theorem ensembleUncertainty_bounds (ens : Option (List ℝ))
    (hens : ∀ s ∈ ens.getD [], 0 ≤ s ∧ s ≤ 1) :
    0 ≤ ensembleUncertainty ens ∧ ensembleUncertainty ens ≤ 1 := by
  unfold ensembleUncertainty
  cases ens with
  | none => norm_num
  | some scores =>
    dsimp only
    split_ifs with hlen
    · have hn : (0 : ℝ) < (scores.length : ℝ) := by
        have : 0 < scores.length := by omega
        exact_mod_cast this
      simp only [Option.getD_some] at hens
      have hsum_nonneg : 0 ≤ scores.sum :=
        List.sum_nonneg (fun s hs => (hens s hs).1)
      have hsum_le : scores.sum ≤ (scores.length : ℝ) := by
        have h := List.sum_le_card_nsmul scores 1 (fun s hs => (hens s hs).2)
        simpa using h
      have hmean_nonneg : 0 ≤ scores.sum / (scores.length : ℝ) :=
        div_nonneg hsum_nonneg (le_of_lt hn)
      have hmean_le : scores.sum / (scores.length : ℝ) ≤ 1 :=
        (div_le_one hn).mpr hsum_le
      have hsq_nonneg :
          ∀ x ∈ scores.map
            (fun s => (s - scores.sum / (scores.length : ℝ)) ^ 2), 0 ≤ x := by
        intro x hx
        rcases List.mem_map.mp hx with ⟨s, _, rfl⟩
        positivity
      have hsq_le :
          ∀ x ∈ scores.map
            (fun s => (s - scores.sum / (scores.length : ℝ)) ^ 2), x ≤ 1 := by
        intro x hx
        rcases List.mem_map.mp hx with ⟨s, hs, rfl⟩
        have h1 := (hens s hs).1
        have h2 := (hens s hs).2
        nlinarith [hmean_nonneg, hmean_le]
      have hvar_nonneg :
          0 ≤ (scores.map
            (fun s => (s - scores.sum / (scores.length : ℝ)) ^ 2)).sum /
              (scores.length : ℝ) :=
        div_nonneg (List.sum_nonneg hsq_nonneg) (le_of_lt hn)
      have hvar_le :
          (scores.map
            (fun s => (s - scores.sum / (scores.length : ℝ)) ^ 2)).sum /
              (scores.length : ℝ) ≤ 1 := by
        rw [div_le_one hn]
        have h := List.sum_le_card_nsmul
          (scores.map
            (fun s => (s - scores.sum / (scores.length : ℝ)) ^ 2)) 1 hsq_le
        simpa using h
      exact ⟨Real.sqrt_nonneg _, Real.sqrt_le_one.mpr hvar_le⟩
    · norm_num

/-- C4, amended: `raw` and `calibrated` always lie in `[0, 1]`; when the
ensemble scores lie in `[0, 1]`, `uncertainty` lies in `[0, 1]`; and when
the raw logit is non-negative, `calibrated ≤ raw` (temperatures ≥ 1 shrink
non-negative logits toward zero). -/
theorem calculateConfidence_bounds (rawLogit : ℝ) (severity : SeverityLevel)
    (ensembleScores : Option (List ℝ)) :
    (0 ≤ (calculateConfidence rawLogit severity ensembleScores).raw ∧
      (calculateConfidence rawLogit severity ensembleScores).raw ≤ 1 ∧
      0 ≤ (calculateConfidence rawLogit severity ensembleScores).calibrated ∧
      (calculateConfidence rawLogit severity ensembleScores).calibrated ≤ 1) ∧
    ((∀ s ∈ ensembleScores.getD [], 0 ≤ s ∧ s ≤ 1) →
      0 ≤ (calculateConfidence rawLogit severity ensembleScores).uncertainty ∧
        (calculateConfidence rawLogit severity ensembleScores).uncertainty ≤
          1) ∧
    (0 ≤ rawLogit →
      (calculateConfidence rawLogit severity ensembleScores).calibrated ≤
        (calculateConfidence rawLogit severity ensembleScores).raw) := by
  have htemp := severity_temperature_ge_one severity
  unfold calculateConfidence
  dsimp only
  refine ⟨⟨(sigmoid_gt_zero _).le, (sigmoid_below_one _).le,
    (sigmoid_gt_zero _).le, (sigmoid_below_one _).le⟩, ?_, ?_⟩
  · intro hens
    have hu := ensembleUncertainty_bounds ensembleScores hens
    constructor
    · split_ifs
      · exact le_min (by nlinarith [hu.1]) (by norm_num)
      · exact hu.1
    · split_ifs
      · exact (min_le_right _ _).trans (by norm_num)
      · exact hu.2
  · intro hlog
    exact sigmoid_mono (div_le_self hlog htemp)

/-- The descending-score comparator is transitive. -/
theorem scoreDescBool_trans (a b c : ScoredDoc)
    (h1 : scoreDescBool a b = true) (h2 : scoreDescBool b c = true) :
    scoreDescBool a c = true := by
  unfold scoreDescBool at h1 h2 ⊢
  rw [decide_eq_true_eq] at h1 h2 ⊢
  exact h2.trans h1

/-- The descending-score comparator is total. -/
theorem scoreDescBool_total (a b : ScoredDoc) :
    (scoreDescBool a b || scoreDescBool b a) = true := by
  unfold scoreDescBool
  rcases le_total a.score b.score with h | h <;> simp [h]

/-- Rounding to four decimals is monotone. -/
theorem roundTo4_mono {x y : ℝ} (h : x ≤ y) : roundTo4 x ≤ roundTo4 y := by
  unfold roundTo4
  have h1 : round (x * 10000) ≤ round (y * 10000) := by
    rw [round_eq, round_eq]
    exact Int.floor_mono (by linarith)
  have h2 : ((round (x * 10000) : ℤ) : ℝ) ≤ ((round (y * 10000) : ℤ) : ℝ) := by
    exact_mod_cast h1
  linarith

/-- The BM25 scores computed by the implementation agree with the spec's
formula on every document, provided the corpus holds at least one token. -/
theorem bm25Score_formula (q : String) (docs : List RetrievalDoc)
    (hcorpus : 0 < (docs.map (fun d => (tokenize d.text).length)).sum) :
    ∀ sd ∈ (bm25Score none q docs).1, sd.score = bm25SpecScore q docs sd.doc := by
  have hN : 0 < docs.length := by
    rcases docs with _ | ⟨d, rest⟩
    · simp at hcorpus
    · simp
  have hmax : (max 1 docs.length : ℕ) = docs.length := max_eq_right hN
  have hS : ((docs.map (fun d => ((tokenize d.text).length : ℝ))).sum) =
      (((docs.map (fun d => (tokenize d.text).length)).sum : ℕ) : ℝ) := by
    rw [Nat.cast_list_sum, List.map_map]
    rfl
  have hSpos : 0 < (docs.map (fun d => ((tokenize d.text).length : ℝ))).sum := by
    rw [hS]
    exact_mod_cast hcorpus
  intro sd hsd
  unfold bm25Score at hsd
  dsimp only at hsd
  rcases List.mem_map.mp hsd with ⟨d, hd, rfl⟩
  unfold bm25SpecScore
  dsimp only
  rw [hmax]
  congr 1
  apply List.map_congr_left
  intro t _
  dsimp only
  by_cases hdf : 0 < (docs.filter (fun d2 => t ∈ tokenize d2.text)).length
  · unfold idfOf
    dsimp only
    rw [if_pos hdf]
    congr 1
    have hf : (0 : ℝ) ≤
        (((tokenize d.text).filter (fun x => x = t)).length : ℝ) := by
      positivity
    have havg : (0 : ℝ) <
        ((docs.map (fun d2 => ((tokenize d2.text).length : ℝ))).sum) /
          (docs.length : ℝ) := by
      apply div_pos hSpos
      exact_mod_cast hN
    have hlen : (0 : ℝ) ≤
        (0.75 * ((tokenize d.text).length : ℝ)) /
          (((docs.map (fun d2 => ((tokenize d2.text).length : ℝ))).sum) /
            (docs.length : ℝ)) := by
      apply div_nonneg _ havg.le
      positivity
    rw [max_eq_right]
    nlinarith [hf, hlen]
  · have hdf0 : (docs.filter (fun d2 => t ∈ tokenize d2.text)).length = 0 := by
      omega
    have hnot : ∀ d2 ∈ docs, t ∉ tokenize d2.text := by
      have hnil := List.length_eq_zero.mp hdf0
      intro d2 hd2 hmem
      have hmemf : d2 ∈ docs.filter (fun d3 => t ∈ tokenize d3.text) :=
        List.mem_filter.mpr ⟨hd2, decide_eq_true hmem⟩
      rw [hnil] at hmemf
      exact absurd hmemf (List.not_mem_nil _)
    have hf0 : ((tokenize d.text).filter (fun x => x = t)).length = 0 := by
      rw [List.length_eq_zero]
      rw [List.filter_eq_nil_iff]
      intro x hx
      simp only [decide_eq_true_eq]
      intro hxt
      exact hnot d hd (hxt ▸ hx)
    unfold idfOf
    dsimp only
    rw [if_neg hdf, hf0]
    norm_num

/-- C8: BM25 retrieval is deterministic — a second run reusing the cached
IDF table returns identical citations (ordering and scores); the scores
follow the stated BM25 formula with `k1 = 1.5`, `b = 0.75`; and the
returned citations are the first `k` of the descending sort of the BM25
ranking, sorted descending by score. -/
theorem hybridRetrieve_deterministic (q : String) (docs : List RetrievalDoc)
    (k : Nat)
    (hcorpus : 0 < (docs.map (fun d => (tokenize d.text).length)).sum) :
    ((hybridRetrieve (some (hybridRetrieve none q docs k).2) q docs k).1 =
      (hybridRetrieve none q docs k).1) ∧
    (∀ sd ∈ (bm25Score none q docs).1,
      sd.score = bm25SpecScore q docs sd.doc) ∧
    List.Pairwise (fun c1 c2 => c2.score ≤ c1.score)
      (hybridRetrieve none q docs k).1.citations ∧
    ((hybridRetrieve none q docs k).1.citations =
      (((bm25Score none q docs).1.mergeSort scoreDescBool).take k).map
        (fun r =>
          { id := r.doc.id
            source := r.doc.source
            snippet := takeStr 400 r.doc.text
            score := roundTo4 r.score
            metadata := r.doc.metadata : Citation })) := by
  have hsorted := List.sorted_mergeSort scoreDescBool_trans scoreDescBool_total
    (bm25Score none q docs).1
  have htake : List.Pairwise (fun a b => scoreDescBool a b = true)
      (((bm25Score none q docs).1.mergeSort scoreDescBool).take
        (max (k * 2) (k + 2))) :=
    List.Pairwise.sublist (List.take_sublist _ _) hsorted
  have hcollapse :
      ((((bm25Score none q docs).1.mergeSort scoreDescBool).take
          (max (k * 2) (k + 2))).mergeSort scoreDescBool) =
        (((bm25Score none q docs).1.mergeSort scoreDescBool).take
          (max (k * 2) (k + 2))) :=
    List.mergeSort_of_sorted htake
  have hkm : k ≤ max (k * 2) (k + 2) := le_max_of_le_right (by omega)
  have hcit : (hybridRetrieve none q docs k).1.citations =
      (((bm25Score none q docs).1.mergeSort scoreDescBool).take k).map
        (fun r =>
          { id := r.doc.id
            source := r.doc.source
            snippet := takeStr 400 r.doc.text
            score := roundTo4 r.score
            metadata := r.doc.metadata : Citation }) := by
    unfold hybridRetrieve
    dsimp only
    rw [hcollapse, List.take_take, min_eq_left hkm]
  refine ⟨rfl, bm25Score_formula q docs hcorpus, ?_, hcit⟩
  rw [hcit]
  exact List.Pairwise.map _
    (fun a b hab => roundTo4_mono (of_decide_eq_true hab))
    (List.Pairwise.sublist (List.take_sublist _ _) hsorted)

/-- Witness for C8 on a one-document corpus with a two-token text. -/
theorem hybridRetrieve_deterministic_witness :
    (0 < (sampleDocs.map (fun d => (tokenize d.text).length)).sum) ∧
      (((hybridRetrieve (some (hybridRetrieve none "chest" sampleDocs 5).2)
            "chest" sampleDocs 5).1 =
          (hybridRetrieve none "chest" sampleDocs 5).1) ∧
        (∀ sd ∈ (bm25Score none "chest" sampleDocs).1,
          sd.score = bm25SpecScore "chest" sampleDocs sd.doc) ∧
        List.Pairwise (fun c1 c2 => c2.score ≤ c1.score)
          (hybridRetrieve none "chest" sampleDocs 5).1.citations ∧
        ((hybridRetrieve none "chest" sampleDocs 5).1.citations =
          (((bm25Score none "chest" sampleDocs).1.mergeSort
              scoreDescBool).take 5).map
            (fun r =>
              { id := r.doc.id
                source := r.doc.source
                snippet := takeStr 400 r.doc.text
                score := roundTo4 r.score
                metadata := r.doc.metadata : Citation }))) :=
  ⟨by decide, hybridRetrieve_deterministic "chest" sampleDocs 5 (by decide)⟩

/-- Witness for the amended C4 at raw logit 0, severity `medium`, no
ensemble scores: the unconditional bounds, plus each conditional part with
its own hypothesis discharged. -/
theorem calculateConfidence_bounds_witness :
    (0 ≤ (calculateConfidence 0 .medium none).raw ∧
      (calculateConfidence 0 .medium none).raw ≤ 1 ∧
      0 ≤ (calculateConfidence 0 .medium none).calibrated ∧
      (calculateConfidence 0 .medium none).calibrated ≤ 1) ∧
    ((∀ s ∈ (none : Option (List ℝ)).getD [], 0 ≤ s ∧ s ≤ 1) ∧
      (0 ≤ (calculateConfidence 0 .medium none).uncertainty ∧
        (calculateConfidence 0 .medium none).uncertainty ≤ 1)) ∧
    ((0 : ℝ) ≤ 0 ∧
      (calculateConfidence 0 .medium none).calibrated ≤
        (calculateConfidence 0 .medium none).raw) :=
  ⟨(calculateConfidence_bounds 0 .medium none).1,
    ⟨by simp, (calculateConfidence_bounds 0 .medium none).2.1 (by simp)⟩,
    ⟨le_refl 0, (calculateConfidence_bounds 0 .medium none).2.2 (le_refl 0)⟩⟩

end AEGIS
